import Mathlib

/-!
Verification of the vulture scheduled-scan pipeline.

This file is a shallow embedding of the parts of the repository that the
specification makes claims about:

* `vulture_app/scoring.py` — the confidence-scoring engine
  (`calculate_confidence_score` and the credibility step functions);
* `src/vulture.py` — the Reddit discovery scan (`scrape_new_posts`,
  the actionability filter and sort/dedup aggregation inside
  `run_reddit_scan`, the processed-ids ledger, the first-run-of-day gate);
* `vulture_app/cache.py` — the TTL cache (`is_expired`, `load_cache`,
  `prune_cache`);
* `vulture_app/ai_client.py` — the cached TLDR generation
  (`generate_tldr_for_post`);
* `vulture_app/pipeline.py` — the scraper-side age/media/title filters of
  `process_posts`.

Conventions of the embedding:

* Python floats are modelled as exact rationals (`ℚ`).  Every score value
  the pipeline produces is a multiple of 1/4, hence exactly representable
  as a binary float, so the rational model agrees with the float code on
  the pipeline values.
* Python `round(x, 1)` rounds half to even; it is modelled by `pyRound1`.
* Timestamps are UTC epoch seconds (`ℤ`); `timedelta(days=2)` is
  `2 * 86400` seconds, `timedelta(hours=48)` is `48 * 3600` seconds.
* Fallible file reads are modelled with `Except`: an exception type that
  the Python code catches maps to `.ok` of the fallback value, an
  exception it does not catch maps to `.error`.
* External collaborators (the synthesis model, the network) are
  parameters of the definitions that call them.
-/

/-! ### Python `round(x, 1)`

Python rounds floats half to even.  `roundHalfEven q` is the integer
nearest to `q`, ties to the even neighbour; `pyRound1 q` rounds `q` to one
decimal place the same way. -/

def roundHalfEven (q : ℚ) : ℤ :=
  if q - (⌊q⌋ : ℚ) < 1/2 then ⌊q⌋
  else if 1/2 < q - (⌊q⌋ : ℚ) then ⌊q⌋ + 1
  else if Even ⌊q⌋ then ⌊q⌋ else ⌊q⌋ + 1

def pyRound1 (q : ℚ) : ℚ :=
  (roundHalfEven (10 * q) : ℚ) / 10

/-! ### Scoring engine — `vulture_app/scoring.py`

`calculate_confidence_score(post_data)` reads eight entries of the
`post_data` dict (each defaulting to `0` via `dict.get`); `ScoreInputs`
records exactly those eight entries. -/

structure ScoreInputs where
  thesis_clarity : ℚ
  catalyst_present : ℚ
  engagement_quality : ℚ
  formatting_quality : ℚ
  image_insight : ℚ
  account_age_years : ℚ
  total_karma : ℚ
  finance_post_count : ℚ
deriving DecidableEq, Repr

/-- Author account-age component: `1.0` if `age >= 3`, `0.5` if `age >= 1`,
else `0.0` (from `calculate_confidence_score`). -/
def age_score_of (age : ℚ) : ℚ :=
  if 3 ≤ age then 1 else if 1 ≤ age then 1/2 else 0

/-- Author karma component: `1.0` if `karma >= 1000`, `0.5` if
`karma >= 100`, else `0.0`. -/
def karma_score_of (karma : ℚ) : ℚ :=
  if 1000 ≤ karma then 1 else if 100 ≤ karma then 1/2 else 0

/-- Finance-post-history component: `1.0` if `history >= 3`, `0.5` if
`history > 0`, else `0.0`. -/
def history_score_of (history : ℚ) : ℚ :=
  if 3 ≤ history then 1 else if 0 < history then 1/2 else 0

/-- `calculate_confidence_score` from `vulture_app/scoring.py`: caps the
five text sub-scores (`thesis` at `3.0`, `catalyst` at `1.5`, `engage` at
`1.0`, `fmt` at `0.5`, `img` at `0.5`), adds the three credibility
components, and returns `round(min(total, 10.0), 1)`.  The
position-disclosure bonus is not among the terms the function reads. -/
def calculate_confidence_score (d : ScoreInputs) : ℚ :=
  let thesis := min d.thesis_clarity 3
  let catalyst := min d.catalyst_present (3/2)
  let engage := min d.engagement_quality 1
  let fmt := min d.formatting_quality (1/2)
  let img := min d.image_insight (1/2)
  let cred := age_score_of d.account_age_years + karma_score_of d.total_karma
      + history_score_of d.finance_post_count
  pyRound1 (min (thesis + catalyst + engage + fmt + img + cred) 10)

/-- The maximal SubScores input named by the specification example:
thesis 5, catalyst 1.5, formatting 0.5, image 0.5, engagement 1,
credibility components all at their top bands. -/
def maxScoreInputs : ScoreInputs :=
  ⟨5, 3/2, 1, 1/2, 1/2, 3, 1000, 3⟩

/-! ### Posts, synthesis results and plays — `src/vulture.py`

`scrape_new_posts` collects one dict per surviving Reddit submission;
`get_ai_synthesis` returns a dict with keys `ticker`, `briefing`,
`the_play`, `confidence_score` (or `None` on failure); `run_reddit_scan`
merges the two dicts into a play. -/

structure Post where
  id : String
  subreddit : String
  title : String
  selftext : String
  url : String
  created_utc : ℤ
  score : ℤ
  num_comments : ℤ
deriving DecidableEq, Repr

structure Analysis where
  ticker : String
  briefing : String
  the_play : String
  confidence_score : ℚ
deriving DecidableEq, Repr

structure PlayData where
  id : String
  subreddit : String
  title : String
  selftext : String
  url : String
  created_utc : ℤ
  score : ℤ
  num_comments : ℤ
  ticker : String
  briefing : String
  the_play : String
  confidence_score : ℚ
deriving DecidableEq, Repr

/-- The dict merge in `run_reddit_scan`. -/
def mkPlay (p : Post) (a : Analysis) : PlayData :=
  ⟨p.id, p.subreddit, p.title, p.selftext, p.url, p.created_utc, p.score,
    p.num_comments, a.ticker, a.briefing, a.the_play, a.confidence_score⟩

/-- Python substring membership (`needle in haystack`) over characters. -/
def charInfixOf (needle : List Char) : List Char → Bool
  | [] => needle.isEmpty
  | b :: bs => List.isPrefixOf needle (b :: bs) || charInfixOf needle bs

/-- The media-URL test of `scrape_new_posts` and `process_posts`:
the URL ends in `.jpeg` or `.png`, or contains `v.redd.it`. -/
def is_media_url (u : String) : Bool :=
  List.isSuffixOf ".jpeg".data u.data || List.isSuffixOf ".png".data u.data ||
    charInfixOf "v.redd.it".data u.data

/-- `scrape_new_posts` from `src/vulture.py`: a fetched submission is kept
unless its id is already in the processed ledger, it was created more than
two days before `now`, or its URL is media-only. -/
def scrape_new_posts (posts : List Post) (processed_ids : List String) (now : ℤ) :
    List Post :=
  posts.filter fun p =>
    !(decide (p.id ∈ processed_ids)) &&
    !(decide (p.created_utc < now - 2 * 86400)) &&
    !(is_media_url p.url)

/-- Python `str.upper()` on ASCII text: uppercase every character. -/
def str_upper (s : String) : String :=
  ⟨s.data.map Char.toUpper⟩

/-- The actionability filter of `run_reddit_scan`: an analysis is kept when
its confidence is strictly positive and its upper-cased ticker is neither
the no-ticker sentinel nor the multi-stock sentinel. -/
def passes_discovery_filter (a : Analysis) : Bool :=
  decide (0 < a.confidence_score) &&
  !(str_upper a.ticker == "N/A" || str_upper a.ticker == "MULTI_STOCK")

/-- The `analyzed_plays` list of `run_reddit_scan`: synthesis is invoked on
every scraped post; only successful analyses passing the actionability
filter are kept, merged with their posts. -/
def analyzed_plays (synth : Post → Option Analysis) (new_posts : List Post) :
    List PlayData :=
  new_posts.filterMap fun p =>
    match synth p with
    | none => none
    | some a => if passes_discovery_filter a then some (mkPlay p a) else none

/-- The pandas sort key of `run_reddit_scan`:
`sort_values(by=[score, num_comments], ascending=False)` puts `a`
before `b` when `a` is lexicographically at least `b` on
(`score`, `num_comments`). -/
def byScoreCommentsDesc (a b : PlayData) : Bool :=
  decide (b.score < a.score) ||
  (decide (a.score = b.score) && decide (b.num_comments ≤ a.num_comments))

/-- `drop_duplicates(subset=[title], keep=first)`: walk the sorted list,
keeping a play only when its title has not been seen yet. -/
def dropDuplicateTitles : List String → List PlayData → List PlayData
  | _, [] => []
  | seen, p :: ps =>
    if p.title ∈ seen then dropDuplicateTitles seen ps
    else p :: dropDuplicateTitles (p.title :: seen) ps

/-- The ranking/dedup aggregator of `run_reddit_scan`: stable sort by
(`score`, `num_comments`) descending, then deduplicate by title keeping
the first occurrence. -/
def rank_and_dedup (l : List PlayData) : List PlayData :=
  dropDuplicateTitles [] (l.mergeSort byScoreCommentsDesc)

/-- `final_plays` of `run_reddit_scan`: the aggregated list that is both
posted to Discord and appended to the sheet. -/
def final_plays (synth : Post → Option Analysis) (new_posts : List Post) :
    List PlayData :=
  rank_and_dedup (analyzed_plays synth new_posts)

/-! ### Dedup ledger — `src/vulture.py`

`load_processed_ids` reads the newline-delimited ledger file,
`save_processed_ids` appends the ids of every post of the current batch
that was attempted (synthesis success or not). -/

/-- `save_processed_ids`: the ledger file after appending. -/
def save_processed_ids (ledger : List String) (new_ids : List String) : List String :=
  ledger ++ new_ids

/-- The ids submitted to AI synthesis by one `run_reddit_scan` invocation:
exactly the scraped posts (every one of them is attempted, whether or not
synthesis succeeds or the analysis is filtered out). -/
def submitted_to_synthesis (posts : List Post) (ledger : List String) (now : ℤ) :
    List String :=
  (scrape_new_posts posts ledger now).map fun p => p.id

/-- The ledger after one `run_reddit_scan` invocation: every attempted id
is appended, independently of the synthesis outcome. -/
def run_scan_ledger (posts : List Post) (ledger : List String) (now : ℤ) :
    List String :=
  save_processed_ids ledger (submitted_to_synthesis posts ledger now)

/-- One scheduled invocation: the posts the fetch collaborator returns and
the invocation time. -/
structure ScanBatch where
  posts : List Post
  now : ℤ

/-- The ledger contents after a sequence of invocations. -/
def chain_ledger : List ScanBatch → List String → List String
  | [], ledger => ledger
  | b :: bs, ledger => chain_ledger bs (run_scan_ledger b.posts ledger b.now)

/-- All ids submitted to synthesis over a sequence of invocations, each
invocation starting from the ledger left by the previous one. -/
def chain_submitted : List ScanBatch → List String → List String
  | [], _ => []
  | b :: bs, ledger =>
    submitted_to_synthesis b.posts ledger b.now ++
      chain_submitted bs (run_scan_ledger b.posts ledger b.now)

/-! ### TTL cache — `vulture_app/cache.py` and `vulture_app/ai_client.py` -/

/-- One value of the cache mapping: the cached synthesis text and its
timestamp, `none` when `datetime.fromisoformat` cannot parse it. -/
structure CacheEntry where
  summary : String
  timestamp : Option ℤ
deriving DecidableEq, Repr

/-- `is_expired` from `vulture_app/cache.py`: an unparseable timestamp is
expired; otherwise the entry is expired when it is strictly older than
`CACHE_EXPIRY_HOURS = 48` hours. -/
def is_expired (now : ℤ) (e : CacheEntry) : Bool :=
  match e.timestamp with
  | none => true
  | some t => decide (48 * 3600 < now - t)

/-- `prune_cache`: keep exactly the unexpired entries. -/
def prune_cache (now : ℤ) (cache : List (String × CacheEntry)) :
    List (String × CacheEntry) :=
  cache.filter fun pe => !(is_expired now pe.2)

/-- The exceptional outcomes the loading code can leave uncaught. -/
inductive PyError where
  | permissionError
  | jsonDecodeError
deriving DecidableEq, Repr

/-- The observable states of the cache file. -/
inductive CacheFile where
  | missing
  | unreadable
  | malformed
  | wellFormed (entries : List (String × CacheEntry))
deriving DecidableEq, Repr

/-- `load_cache` from `vulture_app/cache.py`: only `FileNotFoundError` is
caught (returning the empty dict); an unreadable file raises from `open`
and a malformed file raises from `json.load`, both uncaught. -/
def load_cache : CacheFile → Except PyError (List (String × CacheEntry))
  | .missing => .ok []
  | .unreadable => .error .permissionError
  | .malformed => .error .jsonDecodeError
  | .wellFormed entries => .ok entries

/-- The observable states of the ledger file (any byte content parses as
lines, so there is no malformed case). -/
inductive LedgerFile where
  | missing
  | unreadable
  | wellFormed (lines : List String)
deriving DecidableEq, Repr

/-- `load_processed_ids` from `src/vulture.py`: a missing file yields the
empty set via the `os.path.exists` guard; an unreadable file raises from
`open`, uncaught; otherwise the stripped lines are returned. -/
def load_processed_ids : LedgerFile → Except PyError (List String)
  | .missing => .ok []
  | .unreadable => .error .permissionError
  | .wellFormed lines => .ok (lines.map String.trim)

/-- `generate_tldr_for_post` from `vulture_app/ai_client.py`, with the
OpenAI call abstracted as `compute`: on a cache hit return the cached
summary and leave the cache unchanged; on a miss compute the text, store
it with the current UTC timestamp, and return it. -/
def generate_tldr_for_post (compute : String → String → String)
    (title body pid : String) (cache : List (String × CacheEntry)) (now : ℤ) :
    String × List (String × CacheEntry) :=
  match cache.lookup pid with
  | some e => (e.summary, cache)
  | none =>
    let txt := compute title body
    (txt, cache ++ [(pid, ⟨txt, some now⟩)])

/-! ### First-run-of-day gate — `run_reddit_scan` in `src/vulture.py`

`run_reddit_scan` reads the persisted date marker, scrapes, and returns
early when the scrape yields no new posts — before the discovery
processing, before the daily-summary block and before the marker
rewrite.  Otherwise it runs the discovery block (synthesize, aggregate,
publish, persist, append ledger) and — only when the marker differs from
today — additionally runs the daily-summary block and rewrites the
marker.  The confirmation phase described by the specification does not
occur in the function. -/

inductive ScanPhase where
  | discovery
  | dailySummary
  | confirmation
deriving DecidableEq, Repr

/-- The sequence of phases one `run_reddit_scan` invocation performs
after the scrape, and the date marker it leaves behind.  `last_run_date`
is the persisted marker, `today` the current UTC date string, and the
scrape is `scrape_new_posts posts ledger now`.  When the scrape is
empty the function returns at once: no phase runs and the marker is left
as it was, even on the first run of a day. -/
def run_reddit_scan_phases (last_run_date today : String)
    (posts : List Post) (ledger : List String) (now : ℤ) :
    List ScanPhase × String :=
  if (scrape_new_posts posts ledger now).isEmpty then
    ([], last_run_date)
  else if last_run_date ≠ today then
    ([ScanPhase.discovery, ScanPhase.dailySummary], today)
  else
    ([ScanPhase.discovery], last_run_date)

/-! ### Scraper pipeline filters — `vulture_app/pipeline.py`

`process_posts` walks the fetched submissions and hands a post to
`generate_tldr_for_post` (and from there to scoring) only when it is at
most 24 hours old, not media-only, and its title is new. -/

/-- The posts of `process_posts` that reach TLDR generation and scoring,
in order, given the titles already seen. -/
def pipeline_attempted (now : ℤ) : List Post → List String → List Post
  | [], _ => []
  | p :: ps, seen =>
    if p.created_utc < now - 86400 then pipeline_attempted now ps seen
    else if is_media_url p.url then pipeline_attempted now ps seen
    else if p.title ∈ seen then pipeline_attempted now ps seen
    else p :: pipeline_attempted now ps (p.title :: seen)

theorem roundHalfEven_le_floor_add_one (q : ℚ) : roundHalfEven q ≤ ⌊q⌋ + 1 := by
  unfold roundHalfEven
  split_ifs <;> omega

theorem floor_le_roundHalfEven (q : ℚ) : ⌊q⌋ ≤ roundHalfEven q := by
  unfold roundHalfEven
  split_ifs <;> omega

theorem roundHalfEven_mono {x y : ℚ} (h : x ≤ y) :
    roundHalfEven x ≤ roundHalfEven y := by
  have hff : ⌊x⌋ ≤ ⌊y⌋ := Int.floor_mono h
  rcases eq_or_lt_of_le hff with heq | hlt
  · have hfx : (⌊x⌋ : ℚ) ≤ x := Int.floor_le x
    have hr : x - (⌊x⌋ : ℚ) ≤ y - (⌊x⌋ : ℚ) := by linarith
    unfold roundHalfEven
    rw [← heq]
    split_ifs <;> first | omega | linarith
  · calc roundHalfEven x ≤ ⌊x⌋ + 1 := roundHalfEven_le_floor_add_one x
      _ ≤ ⌊y⌋ := by omega
      _ ≤ roundHalfEven y := floor_le_roundHalfEven y

theorem pyRound1_mono {x y : ℚ} (h : x ≤ y) : pyRound1 x ≤ pyRound1 y := by
  unfold pyRound1
  have h10 : (10 : ℚ) * x ≤ 10 * y := by linarith
  have hz := roundHalfEven_mono h10
  have hc : ((roundHalfEven (10 * x) : ℤ) : ℚ) ≤ ((roundHalfEven (10 * y) : ℤ) : ℚ) := by
    exact_mod_cast hz
  linarith

theorem pyRound1_nine_half : pyRound1 (19/2) = 19/2 := by
  norm_num [pyRound1, roundHalfEven]

theorem pyRound1_ten : pyRound1 10 = 10 := by
  norm_num [pyRound1, roundHalfEven]

theorem pyRound1_zero : pyRound1 0 = 0 := by
  norm_num [pyRound1, roundHalfEven]

theorem age_score_of_nonneg (a : ℚ) : 0 ≤ age_score_of a := by
  unfold age_score_of; split_ifs <;> norm_num

theorem age_score_of_le_one (a : ℚ) : age_score_of a ≤ 1 := by
  unfold age_score_of; split_ifs <;> norm_num

theorem karma_score_of_nonneg (a : ℚ) : 0 ≤ karma_score_of a := by
  unfold karma_score_of; split_ifs <;> norm_num

theorem karma_score_of_le_one (a : ℚ) : karma_score_of a ≤ 1 := by
  unfold karma_score_of; split_ifs <;> norm_num

theorem history_score_of_nonneg (a : ℚ) : 0 ≤ history_score_of a := by
  unfold history_score_of; split_ifs <;> norm_num

theorem history_score_of_le_one (a : ℚ) : history_score_of a ≤ 1 := by
  unfold history_score_of; split_ifs <;> norm_num

theorem age_score_of_mono {a b : ℚ} (h : a ≤ b) : age_score_of a ≤ age_score_of b := by
  unfold age_score_of
  split_ifs <;> linarith

theorem karma_score_of_mono {a b : ℚ} (h : a ≤ b) : karma_score_of a ≤ karma_score_of b := by
  unfold karma_score_of
  split_ifs <;> linarith

theorem history_score_of_mono {a b : ℚ} (h : a ≤ b) : history_score_of a ≤ history_score_of b := by
  unfold history_score_of
  split_ifs <;> linarith

/-- Shared bound: no input reaches more than 9.5, because the five text
caps sum to 6.5 and the credibility components to 3. -/
theorem calculate_confidence_score_le (d : ScoreInputs) :
    calculate_confidence_score d ≤ 19/2 := by
  unfold calculate_confidence_score
  have h1 : min d.thesis_clarity 3 ≤ 3 := min_le_right _ _
  have h2 : min d.catalyst_present (3/2) ≤ 3/2 := min_le_right _ _
  have h3 : min d.engagement_quality 1 ≤ 1 := min_le_right _ _
  have h4 : min d.formatting_quality (1/2) ≤ 1/2 := min_le_right _ _
  have h5 : min d.image_insight (1/2) ≤ 1/2 := min_le_right _ _
  have h6 := age_score_of_le_one d.account_age_years
  have h7 := karma_score_of_le_one d.total_karma
  have h8 := history_score_of_le_one d.finance_post_count
  have hmin : min (min d.thesis_clarity 3 + min d.catalyst_present (3/2) +
      min d.engagement_quality 1 + min d.formatting_quality (1/2) +
      min d.image_insight (1/2) + (age_score_of d.account_age_years +
      karma_score_of d.total_karma + history_score_of d.finance_post_count)) 10 ≤ 19/2 := by
    refine le_trans (min_le_left _ _) ?_
    linarith
  calc pyRound1 _ ≤ pyRound1 (19/2) := pyRound1_mono hmin
    _ = 19/2 := pyRound1_nine_half

/-- Evaluation of the scoring engine at the maximal SubScores input:
thesis is capped to 3, so the total is 3 + 1.5 + 1 + 0.5 + 0.5 + 3 = 9.5. -/
theorem calculate_confidence_score_max_eval :
    calculate_confidence_score maxScoreInputs = 19/2 := by
  norm_num [calculate_confidence_score, maxScoreInputs, age_score_of,
    karma_score_of, history_score_of, min_def, pyRound1, roundHalfEven]

/-- Claim C1 counterexample: at the maximal SubScores input of the
specification example, `calculate_confidence_score` returns 9.5, not 10.0.
The code caps `thesis_clarity` at 3.0 (not 5) and does not add the
position-disclosure bonus, so the sum of the caps is 9.5. -/
theorem max_subscores_input_not_ten :
    calculate_confidence_score maxScoreInputs = 19/2 ∧
    calculate_confidence_score maxScoreInputs ≠ 10 := by
  refine ⟨calculate_confidence_score_max_eval, ?_⟩
  rw [calculate_confidence_score_max_eval]
  norm_num

/-- Claim C1 (amended): the final confidence score is
`round(min(sum of capped sub-scores, 10.0), 1)` with `thesis_clarity`
capped at 3, `catalyst_present` at 1.5, `engagement_quality` at 1,
`formatting_quality` at 0.5, `image_insight` at 0.5 and credibility at 3,
and without the position-disclosure bonus; the maximal SubScores input
therefore yields exactly 9.5, which is the largest attainable score. -/
theorem confidence_score_max_is_nine_point_five :
    (∀ d : ScoreInputs, calculate_confidence_score d ≤ 19/2) ∧
    calculate_confidence_score maxScoreInputs = 19/2 :=
  ⟨calculate_confidence_score_le, calculate_confidence_score_max_eval⟩

/-- Claim C2 counterexample: the input dict with `thesis_clarity = -1` and
every other entry `0` produces a confidence of `-1`, outside `[0, 10]`,
because the caps are upper caps only (`min`) and no lower clamp exists. -/
theorem negative_input_breaks_range :
    calculate_confidence_score ⟨-1, 0, 0, 0, 0, 0, 0, 0⟩ = -1 ∧
    ¬(0 ≤ calculate_confidence_score ⟨-1, 0, 0, 0, 0, 0, 0, 0⟩) := by
  have h : calculate_confidence_score ⟨-1, 0, 0, 0, 0, 0, 0, 0⟩ = -1 := by
    norm_num [calculate_confidence_score, age_score_of, karma_score_of,
      history_score_of, min_def, pyRound1, roundHalfEven]
  refine ⟨h, ?_⟩
  rw [h]; norm_num

/-- Claim C2 (amended): for every input dictionary of nonnegative
sub-score values (of any magnitude), `calculate_confidence_score` returns
a value in `[0, 10]`, and for all inputs whatsoever the result is
non-decreasing in each of the eight entries the function reads (stated
jointly, which subsumes varying one entry with the others held fixed). -/
theorem confidence_score_range_and_monotone :
    (∀ d : ScoreInputs,
      0 ≤ d.thesis_clarity → 0 ≤ d.catalyst_present →
      0 ≤ d.engagement_quality → 0 ≤ d.formatting_quality →
      0 ≤ d.image_insight → 0 ≤ d.account_age_years →
      0 ≤ d.total_karma → 0 ≤ d.finance_post_count →
      0 ≤ calculate_confidence_score d ∧ calculate_confidence_score d ≤ 10) ∧
    (∀ d e : ScoreInputs,
      d.thesis_clarity ≤ e.thesis_clarity →
      d.catalyst_present ≤ e.catalyst_present →
      d.engagement_quality ≤ e.engagement_quality →
      d.formatting_quality ≤ e.formatting_quality →
      d.image_insight ≤ e.image_insight →
      d.account_age_years ≤ e.account_age_years →
      d.total_karma ≤ e.total_karma →
      d.finance_post_count ≤ e.finance_post_count →
      calculate_confidence_score d ≤ calculate_confidence_score e) := by
  constructor
  · intro d h1 h2 h3 h4 h5 _ _ _
    constructor
    · unfold calculate_confidence_score
      have t1 : (0:ℚ) ≤ min d.thesis_clarity 3 := le_min h1 (by norm_num)
      have t2 : (0:ℚ) ≤ min d.catalyst_present (3/2) := le_min h2 (by norm_num)
      have t3 : (0:ℚ) ≤ min d.engagement_quality 1 := le_min h3 (by norm_num)
      have t4 : (0:ℚ) ≤ min d.formatting_quality (1/2) := le_min h4 (by norm_num)
      have t5 : (0:ℚ) ≤ min d.image_insight (1/2) := le_min h5 (by norm_num)
      have t6 := age_score_of_nonneg d.account_age_years
      have t7 := karma_score_of_nonneg d.total_karma
      have t8 := history_score_of_nonneg d.finance_post_count
      have htot : (0:ℚ) ≤ min (min d.thesis_clarity 3 + min d.catalyst_present (3/2) +
          min d.engagement_quality 1 + min d.formatting_quality (1/2) +
          min d.image_insight (1/2) + (age_score_of d.account_age_years +
          karma_score_of d.total_karma + history_score_of d.finance_post_count)) 10 :=
        le_min (by linarith) (by norm_num)
      calc (0:ℚ) = pyRound1 0 := pyRound1_zero.symm
        _ ≤ pyRound1 _ := pyRound1_mono htot
    · have := calculate_confidence_score_le d
      linarith
  · intro d e h1 h2 h3 h4 h5 h6 h7 h8
    unfold calculate_confidence_score
    have t1 : min d.thesis_clarity 3 ≤ min e.thesis_clarity 3 :=
      min_le_min h1 le_rfl
    have t2 : min d.catalyst_present (3/2) ≤ min e.catalyst_present (3/2) :=
      min_le_min h2 le_rfl
    have t3 : min d.engagement_quality 1 ≤ min e.engagement_quality 1 :=
      min_le_min h3 le_rfl
    have t4 : min d.formatting_quality (1/2) ≤ min e.formatting_quality (1/2) :=
      min_le_min h4 le_rfl
    have t5 : min d.image_insight (1/2) ≤ min e.image_insight (1/2) :=
      min_le_min h5 le_rfl
    have t6 := age_score_of_mono h6
    have t7 := karma_score_of_mono h7
    have t8 := history_score_of_mono h8
    exact pyRound1_mono (min_le_min (by linarith) le_rfl)

/-- Witness for the amended Claim C2 at concrete inputs. -/
theorem confidence_score_range_and_monotone_witness :
    (0 ≤ calculate_confidence_score ⟨1, 0, 0, 0, 0, 0, 0, 0⟩ ∧
      calculate_confidence_score ⟨1, 0, 0, 0, 0, 0, 0, 0⟩ ≤ 10) ∧
    calculate_confidence_score ⟨1, 0, 0, 0, 0, 0, 0, 0⟩ ≤
      calculate_confidence_score ⟨2, 1, 0, 0, 0, 0, 0, 0⟩ :=
  ⟨confidence_score_range_and_monotone.1 ⟨1, 0, 0, 0, 0, 0, 0, 0⟩
      (by norm_num) (by norm_num) (by norm_num) (by norm_num)
      (by norm_num) (by norm_num) (by norm_num) (by norm_num),
    confidence_score_range_and_monotone.2 ⟨1, 0, 0, 0, 0, 0, 0, 0⟩
      ⟨2, 1, 0, 0, 0, 0, 0, 0⟩
      (by norm_num) (by norm_num) (by norm_num) (by norm_num)
      (by norm_num) (by norm_num) (by norm_num) (by norm_num)⟩

theorem byScoreCommentsDesc_trans (a b c : PlayData)
    (hab : byScoreCommentsDesc a b = true) (hbc : byScoreCommentsDesc b c = true) :
    byScoreCommentsDesc a c = true := by
  simp only [byScoreCommentsDesc, Bool.or_eq_true, Bool.and_eq_true,
    decide_eq_true_eq] at *
  omega

theorem byScoreCommentsDesc_total (a b : PlayData) :
    (byScoreCommentsDesc a b || byScoreCommentsDesc b a) = true := by
  simp only [byScoreCommentsDesc, Bool.or_eq_true, Bool.and_eq_true,
    decide_eq_true_eq]
  omega

theorem mem_of_mem_dropDuplicateTitles {seen : List String} {s : List PlayData}
    {z : PlayData} (h : z ∈ dropDuplicateTitles seen s) : z ∈ s := by
  induction s generalizing seen with
  | nil => simp [dropDuplicateTitles] at h
  | cons p ps ih =>
    rw [dropDuplicateTitles] at h
    by_cases hp : p.title ∈ seen
    · rw [if_pos hp] at h
      exact List.mem_cons_of_mem _ (ih h)
    · rw [if_neg hp] at h
      rcases List.mem_cons.mp h with h1 | h1
      · simp [h1]
      · exact List.mem_cons_of_mem _ (ih h1)

theorem filter_dropDuplicateTitles (t : String) (seen : List String)
    (s : List PlayData) :
    (dropDuplicateTitles seen s).filter (fun z => z.title == t)
      = if t ∈ seen then [] else (s.filter (fun z => z.title == t)).take 1 := by
  induction s generalizing seen with
  | nil => simp [dropDuplicateTitles]
  | cons p ps ih =>
    rw [dropDuplicateTitles]
    by_cases hp : p.title ∈ seen
    · rw [if_pos hp, ih]
      by_cases hts : t ∈ seen
      · simp [hts]
      · have hne : p.title ≠ t := fun he => hts (he ▸ hp)
        simp [hts, List.filter_cons, hne]
    · rw [if_neg hp]
      by_cases hpt : p.title = t
      · subst hpt
        have hts : p.title ∉ seen := hp
        rw [List.filter_cons, List.filter_cons]
        simp only [beq_self_eq_true, if_pos, ih]
        simp [hts]
      · have hne : (p.title == t) = false := by simpa using hpt
        have hmemc : (t ∈ p.title :: seen) = (t ∈ seen) := by
          simp only [List.mem_cons, eq_iff_iff]
          constructor
          · rintro (h1 | h1)
            · exact absurd h1.symm hpt
            · exact h1
          · exact Or.inr
        simp only [List.filter_cons, hne, Bool.false_eq_true, if_false, ih, hmemc]

/-- Claim C3: the aggregator sorts by (`score`, `num_comments`)
descending and deduplicates by title keeping the first occurrence after
the sort, so when exactly the two plays `x` and `y` of the input share a
title and `y` is strictly below `x` on the (`score`, `num_comments`)
pair, the aggregator keeps `x`, drops `y`, and exactly one play with that
title remains. -/
theorem rank_and_dedup_keeps_most_popular (l : List PlayData) (x y : PlayData)
    (hx : x ∈ l) (hy : y ∈ l) (ht : y.title = x.title)
    (hk : y.score < x.score ∨ (y.score = x.score ∧ y.num_comments < x.num_comments))
    (honly : ∀ z ∈ l, z.title = x.title → z = x ∨ z = y) :
    x ∈ rank_and_dedup l ∧ y ∉ rank_and_dedup l ∧
      (rank_and_dedup l).countP (fun z => z.title == x.title) = 1 := by
  classical
  have hxy : x ≠ y := by
    intro he
    rw [he] at hk
    omega
  set s := l.mergeSort byScoreCommentsDesc with hs
  have hperm : s.Perm l := List.mergeSort_perm l _
  have hsorted : s.Pairwise (fun a b => byScoreCommentsDesc a b = true) :=
    List.sorted_mergeSort byScoreCommentsDesc_trans byScoreCommentsDesc_total l
  have hxs : x ∈ s := hperm.mem_iff.mpr hx
  have hys : y ∈ s := hperm.mem_iff.mpr hy
  set f := s.filter (fun z => z.title == x.title) with hf
  have hxf : x ∈ f := List.mem_filter.mpr ⟨hxs, by simp⟩
  have hfpair : f.Pairwise (fun a b => byScoreCommentsDesc a b = true) :=
    hsorted.filter _
  have hnotle : ¬(byScoreCommentsDesc y x = true) := by
    simp only [byScoreCommentsDesc, Bool.or_eq_true, Bool.and_eq_true,
      decide_eq_true_eq]
    omega
  have hmemf : ∀ z ∈ f, z = x ∨ z = y := by
    intro z hz
    have hz1 := List.mem_filter.mp hz
    exact honly z (hperm.mem_iff.mp hz1.1) (by simpa using hz1.2)
  obtain ⟨w, ws, hwf⟩ : ∃ w ws, f = w :: ws := by
    cases hfe : f with
    | nil => rw [hfe] at hxf; exact absurd hxf (List.not_mem_nil x)
    | cons w ws => exact ⟨w, ws, rfl⟩
  have hwx : w = x := by
    rcases hmemf w (hwf ▸ List.mem_cons_self w ws) with h | h
    · exact h
    · exfalso
      subst h
      have hxws : x ∈ ws := by
        have hx2 : x ∈ w :: ws := hwf ▸ hxf
        rcases List.mem_cons.mp hx2 with h1 | h1
        · exact absurd h1 hxy
        · exact h1
      have hle : byScoreCommentsDesc w x = true :=
        (List.pairwise_cons.mp (hwf ▸ hfpair)).1 x hxws
      exact hnotle hle
  have houtval : (rank_and_dedup l).filter (fun z => z.title == x.title) = [x] := by
    rw [rank_and_dedup, filter_dropDuplicateTitles]
    simp only [List.not_mem_nil, if_false]
    rw [← hs, ← hf, hwf, hwx]
    rfl
  refine ⟨?_, ?_, ?_⟩
  · have : x ∈ (rank_and_dedup l).filter (fun z => z.title == x.title) := by
      rw [houtval]; exact List.mem_singleton_self x
    exact List.mem_of_mem_filter this
  · intro hy2
    have : y ∈ (rank_and_dedup l).filter (fun z => z.title == x.title) :=
      List.mem_filter.mpr ⟨hy2, by simp [ht]⟩
    rw [houtval] at this
    exact hxy ((List.mem_singleton.mp this) ▸ rfl)
  · rw [List.countP_eq_length_filter, houtval]
    rfl

/-- Witness for Claim C3: two plays titled `SAME`, p2 with the higher
(upvotes, comments) pair; the aggregator keeps p2 and drops p1. -/
theorem rank_and_dedup_keeps_most_popular_witness :
    (⟨"p2", "wsb", "SAME", "", "u2", 0, 80, 5, "TSLA", "b", "p", 6⟩ : PlayData) ∈
      rank_and_dedup [⟨"p1", "wsb", "SAME", "", "u1", 0, 50, 10, "TSLA", "b", "p", 6⟩,
        ⟨"p2", "wsb", "SAME", "", "u2", 0, 80, 5, "TSLA", "b", "p", 6⟩] ∧
    (⟨"p1", "wsb", "SAME", "", "u1", 0, 50, 10, "TSLA", "b", "p", 6⟩ : PlayData) ∉
      rank_and_dedup [⟨"p1", "wsb", "SAME", "", "u1", 0, 50, 10, "TSLA", "b", "p", 6⟩,
        ⟨"p2", "wsb", "SAME", "", "u2", 0, 80, 5, "TSLA", "b", "p", 6⟩] ∧
    (rank_and_dedup [⟨"p1", "wsb", "SAME", "", "u1", 0, 50, 10, "TSLA", "b", "p", 6⟩,
        ⟨"p2", "wsb", "SAME", "", "u2", 0, 80, 5, "TSLA", "b", "p", 6⟩]).countP
      (fun z => z.title == (⟨"p2", "wsb", "SAME", "", "u2", 0, 80, 5, "TSLA", "b", "p", 6⟩ : PlayData).title) = 1 :=
  rank_and_dedup_keeps_most_popular _ _ _
    (by simp) (by simp) (by simp) (by simp)
    (by intro z hz hzt
        rcases List.mem_cons.mp hz with h | h
        · exact Or.inr h
        · rcases List.mem_cons.mp h with h1 | h1
          · exact Or.inl h1
          · exact absurd h1 (List.not_mem_nil z))

/-- Every play the discovery filter lets through has strictly positive
confidence and a non-sentinel ticker. -/
theorem mem_analyzed_plays {synth : Post → Option Analysis}
    {new_posts : List Post} {z : PlayData} (h : z ∈ analyzed_plays synth new_posts) :
    0 < z.confidence_score ∧ str_upper z.ticker ≠ "N/A" ∧
      str_upper z.ticker ≠ "MULTI_STOCK" := by
  rw [analyzed_plays] at h
  obtain ⟨p, _, hp⟩ := List.mem_filterMap.mp h
  cases hsy : synth p with
  | none => rw [hsy] at hp; exact absurd hp (by simp)
  | some a =>
    rw [hsy] at hp
    change (if passes_discovery_filter a = true then some (mkPlay p a) else none)
      = some z at hp
    by_cases hpass : passes_discovery_filter a
    · rw [if_pos hpass, Option.some_inj] at hp
      subst hp
      have := hpass
      simp only [passes_discovery_filter, Bool.and_eq_true, decide_eq_true_eq,
        Bool.not_eq_true', Bool.or_eq_false_iff, beq_eq_false_iff_ne] at this
      exact ⟨this.1, this.2.1, this.2.2⟩
    · rw [if_neg hpass] at hp
      exact absurd hp (by simp)

theorem mem_rank_and_dedup {l : List PlayData} {z : PlayData}
    (h : z ∈ rank_and_dedup l) : z ∈ l := by
  rw [rank_and_dedup] at h
  exact (List.mergeSort_perm l byScoreCommentsDesc).mem_iff.mp
    (mem_of_mem_dropDuplicateTitles h)

/-- Claim C4: a synthesized item whose ticker is the no-actionable-ticker
sentinel is excluded from the aggregated list regardless of the raw
confidence the model reported, and hence from both Discord publication
and sheet persistence, which iterate exactly over that list. -/
theorem sentinel_ticker_never_published (synth : Post → Option Analysis)
    (posts : List Post) (p : Post) (a : Analysis)
    (hticker : str_upper a.ticker = "N/A") :
    mkPlay p a ∉ analyzed_plays synth posts ∧
      mkPlay p a ∉ final_plays synth posts := by
  have hnot : mkPlay p a ∉ analyzed_plays synth posts := by
    intro hmem
    have h := (mem_analyzed_plays hmem).2.1
    exact h hticker
  refine ⟨hnot, fun hmem => hnot ?_⟩
  exact mem_rank_and_dedup hmem

/-- Witness for Claim C4: a sentinel-ticker analysis with raw confidence
7.0 is excluded. -/
theorem sentinel_ticker_never_published_witness :
    mkPlay ⟨"p1", "wsb", "T", "", "u", 0, 10, 3⟩ ⟨"N/A", "b", "no play", 7⟩ ∉
      analyzed_plays (fun _ => some ⟨"N/A", "b", "no play", 7⟩)
        [⟨"p1", "wsb", "T", "", "u", 0, 10, 3⟩] ∧
    mkPlay ⟨"p1", "wsb", "T", "", "u", 0, 10, 3⟩ ⟨"N/A", "b", "no play", 7⟩ ∉
      final_plays (fun _ => some ⟨"N/A", "b", "no play", 7⟩)
        [⟨"p1", "wsb", "T", "", "u", 0, 10, 3⟩] :=
  sentinel_ticker_never_published _ _ _ _ (by decide)

theorem not_mem_submitted_of_mem_ledger {pid : String} {posts : List Post}
    {ledger : List String} {now : ℤ} (h : pid ∈ ledger) :
    pid ∉ submitted_to_synthesis posts ledger now := by
  intro hmem
  rw [submitted_to_synthesis] at hmem
  obtain ⟨q, hq, hqid⟩ := List.mem_map.mp hmem
  have hfil := (List.mem_filter.mp hq).2
  simp only [Bool.and_eq_true, Bool.not_eq_true', decide_eq_false_iff_not] at hfil
  exact hfil.1.1 (hqid ▸ h)

theorem mem_ledger_run_scan {pid : String} {posts : List Post}
    {ledger : List String} {now : ℤ} (h : pid ∈ ledger) :
    pid ∈ run_scan_ledger posts ledger now := by
  rw [run_scan_ledger, save_processed_ids]
  exact List.mem_append_left _ h

theorem chain_not_submitted_of_mem (batches : List ScanBatch) :
    ∀ {ledger : List String} {pid : String}, pid ∈ ledger →
      pid ∉ chain_submitted batches ledger := by
  induction batches with
  | nil =>
    intro ledger pid _ hmem
    simp [chain_submitted] at hmem
  | cons b bs ih =>
    intro ledger pid h hmem
    rw [chain_submitted] at hmem
    rcases List.mem_append.mp hmem with h1 | h1
    · exact not_mem_submitted_of_mem_ledger h h1
    · exact ih (mem_ledger_run_scan h) h1

/-- Claim C5: (1) every scraped post of an invocation — attempted,
whatever the synthesis outcome, since `run_scan_ledger` does not depend
on it — has its id appended to the ledger; (2) an id already in the
ledger is never submitted to the synthesis collaborator in any later
invocation; (3) hence an attempted id is never re-submitted in any chain
of later invocations. -/
theorem ledger_attempted_once_never_resubmitted
    (posts : List Post) (ledger : List String) (now : ℤ)
    (batches : List ScanBatch) (pid : String) (p : Post) :
    (p ∈ scrape_new_posts posts ledger now →
      p.id ∈ run_scan_ledger posts ledger now) ∧
    (pid ∈ ledger → pid ∉ chain_submitted batches ledger) ∧
    (p ∈ scrape_new_posts posts ledger now →
      p.id ∉ chain_submitted batches (run_scan_ledger posts ledger now)) := by
  have happend : p ∈ scrape_new_posts posts ledger now →
      p.id ∈ run_scan_ledger posts ledger now := by
    intro hp
    rw [run_scan_ledger, save_processed_ids]
    refine List.mem_append_right _ ?_
    rw [submitted_to_synthesis]
    exact List.mem_map.mpr ⟨p, hp, rfl⟩
  refine ⟨happend, fun h => chain_not_submitted_of_mem batches h, fun hp =>
    chain_not_submitted_of_mem batches (happend hp)⟩

/-- Witness for Claim C5 at a concrete run: post `a` is scraped, its id
lands in the ledger, and it is not re-submitted by a later batch fetching
the same post; the ledger id `b` is likewise never submitted. -/
theorem ledger_attempted_once_never_resubmitted_witness :
    ((⟨"a", "wsb", "T", "", "u", 0, 1, 1⟩ : Post) ∈
        scrape_new_posts [⟨"a", "wsb", "T", "", "u", 0, 1, 1⟩] ["b"] 0 →
      "a" ∈ run_scan_ledger [⟨"a", "wsb", "T", "", "u", 0, 1, 1⟩] ["b"] 0) ∧
    ("b" ∈ ["b"] →
      "b" ∉ chain_submitted [⟨[⟨"a", "wsb", "T", "", "u", 0, 1, 1⟩], 0⟩] ["b"]) ∧
    ((⟨"a", "wsb", "T", "", "u", 0, 1, 1⟩ : Post) ∈
        scrape_new_posts [⟨"a", "wsb", "T", "", "u", 0, 1, 1⟩] ["b"] 0 →
      "a" ∉ chain_submitted [⟨[⟨"a", "wsb", "T", "", "u", 0, 1, 1⟩], 0⟩]
        (run_scan_ledger [⟨"a", "wsb", "T", "", "u", 0, 1, 1⟩] ["b"] 0)) :=
  ledger_attempted_once_never_resubmitted
    [⟨"a", "wsb", "T", "", "u", 0, 1, 1⟩] ["b"] 0
    [⟨[⟨"a", "wsb", "T", "", "u", 0, 1, 1⟩], 0⟩] "b"
    ⟨"a", "wsb", "T", "", "u", 0, 1, 1⟩

/-- Claim C6: after a pruning sweep at time `now`, an entry whose parsed
timestamp is more than 48 hours old is absent, and an entry of the cache
whose age is at most 48 hours (for instance 47 hours) is retained. -/
theorem prune_cache_ttl (now : ℤ) (cache : List (String × CacheEntry))
    (pid : String) (e : CacheEntry) (t : ℤ) (ht : e.timestamp = some t) :
    (48 * 3600 < now - t → (pid, e) ∉ prune_cache now cache) ∧
    ((pid, e) ∈ cache → now - t ≤ 48 * 3600 → (pid, e) ∈ prune_cache now cache) := by
  constructor
  · intro hold hmem
    have h2 := (List.mem_filter.mp hmem).2
    simp only [is_expired, ht, Bool.not_eq_true', decide_eq_false_iff_not] at h2
    exact h2 hold
  · intro hmem hfresh
    refine List.mem_filter.mpr ⟨hmem, ?_⟩
    simp only [is_expired, ht, Bool.not_eq_true', decide_eq_false_iff_not]
    omega

/-- Witness for Claim C6: with epoch `t = 0`, the entry is pruned at
`now = 48h + 1s` and retained at `now = 47h`. -/
theorem prune_cache_ttl_witness :
    ("p", (⟨"s", some 0⟩ : CacheEntry)) ∉
      prune_cache 172801 [("p", (⟨"s", some 0⟩ : CacheEntry))] ∧
    ("p", (⟨"s", some 0⟩ : CacheEntry)) ∈
      prune_cache 169200 [("p", (⟨"s", some 0⟩ : CacheEntry))] :=
  ⟨(prune_cache_ttl 172801 [("p", ⟨"s", some 0⟩)] "p" ⟨"s", some 0⟩ 0 rfl).1
      (by norm_num),
    (prune_cache_ttl 169200 [("p", ⟨"s", some 0⟩)] "p" ⟨"s", some 0⟩ 0 rfl).2
      (by simp) (by norm_num)⟩

/-- Claim C8 counterexample: a malformed cache file is not treated as an
empty cache: `json.load` raises `JSONDecodeError`, which `load_cache`
does not catch (only `FileNotFoundError` is), so the failure propagates
instead of failing open. -/
theorem malformed_cache_file_fatal :
    load_cache CacheFile.malformed = Except.error PyError.jsonDecodeError ∧
    load_cache CacheFile.malformed ≠ Except.ok [] := by
  refine ⟨rfl, ?_⟩
  simp [load_cache]

/-- Claim C8 (amended): a missing cache or ledger file is treated as the
empty collection and is not fatal, but an unreadable cache or ledger file
raises an uncaught `PermissionError` and a malformed cache file an
uncaught `JSONDecodeError`; only the missing-file failure fails open. -/
theorem load_failure_semantics :
    load_cache CacheFile.missing = Except.ok [] ∧
    load_processed_ids LedgerFile.missing = Except.ok [] ∧
    load_cache CacheFile.unreadable = Except.error PyError.permissionError ∧
    load_cache CacheFile.malformed = Except.error PyError.jsonDecodeError ∧
    load_processed_ids LedgerFile.unreadable = Except.error PyError.permissionError :=
  ⟨rfl, rfl, rfl, rfl, rfl⟩

/-- Claim C9: on a hit the cached summary is returned, the cache is left
unchanged, and the result does not depend on the compute function (it is
not invoked); on a miss the computed text is returned and stored under
the id together with the current UTC timestamp. -/
theorem tldr_cache_hit_miss (compute compute2 : String → String → String)
    (title body pid : String) (cache : List (String × CacheEntry)) (now : ℤ) :
    (∀ e, cache.lookup pid = some e →
      generate_tldr_for_post compute title body pid cache now = (e.summary, cache) ∧
      generate_tldr_for_post compute title body pid cache now =
        generate_tldr_for_post compute2 title body pid cache now) ∧
    (cache.lookup pid = none →
      generate_tldr_for_post compute title body pid cache now =
        (compute title body, cache ++ [(pid, ⟨compute title body, some now⟩)])) := by
  constructor
  · intro e he
    constructor <;> simp [generate_tldr_for_post, he]
  · intro he
    simp [generate_tldr_for_post, he]

/-- Witness for Claim C9: a hit on id `p` ignores the compute function
and returns the cached text; a miss on id `q` computes, stores with the
current timestamp, and returns the computed text. -/
theorem tldr_cache_hit_miss_witness :
    (generate_tldr_for_post (fun _ _ => "computed") "t" "b" "p"
        [("p", (⟨"hit", some 5⟩ : CacheEntry))] 9 =
      ("hit", [("p", (⟨"hit", some 5⟩ : CacheEntry))]) ∧
      generate_tldr_for_post (fun _ _ => "computed") "t" "b" "p"
        [("p", (⟨"hit", some 5⟩ : CacheEntry))] 9 =
      generate_tldr_for_post (fun _ _ => "other") "t" "b" "p"
        [("p", (⟨"hit", some 5⟩ : CacheEntry))] 9) ∧
    generate_tldr_for_post (fun _ _ => "computed") "t" "b" "q"
        [("p", (⟨"hit", some 5⟩ : CacheEntry))] 9 =
      ("computed", [("p", (⟨"hit", some 5⟩ : CacheEntry)),
        ("q", (⟨"computed", some 9⟩ : CacheEntry))]) :=
  ⟨(tldr_cache_hit_miss (fun _ _ => "computed") (fun _ _ => "other") "t" "b" "p"
      [("p", ⟨"hit", some 5⟩)] 9).1 ⟨"hit", some 5⟩ (by rfl),
    (tldr_cache_hit_miss (fun _ _ => "computed") (fun _ _ => "other") "t" "b" "q"
      [("p", ⟨"hit", some 5⟩)] 9).2 (by rfl)⟩

/-- Claim C7 counterexample: on a subsequent run of the same day (marker
equals today) whose scrape returned a new post, `run_reddit_scan`
performs only the discovery phase; no confirmation phase runs before
discovery or at all. -/
theorem no_confirmation_on_subsequent_run :
    run_reddit_scan_phases "2026-10-12" "2026-10-12"
      [⟨"a", "wsb", "T", "", "u", 0, 1, 1⟩] [] 0 =
      ([ScanPhase.discovery], "2026-10-12") ∧
    ScanPhase.confirmation ∉
      (run_reddit_scan_phases "2026-10-12" "2026-10-12"
        [⟨"a", "wsb", "T", "", "u", 0, 1, 1⟩] [] 0).1 := by
  have h : run_reddit_scan_phases "2026-10-12" "2026-10-12"
      [⟨"a", "wsb", "T", "", "u", 0, 1, 1⟩] [] 0 =
      ([ScanPhase.discovery], "2026-10-12") := by
    rw [run_reddit_scan_phases]
    rw [if_neg (by decide), if_neg (by simp)]
  refine ⟨h, ?_⟩
  rw [h]
  decide

/-- Claim C7 (amended): no confirmation phase exists on any run.  When
the scrape yields no new posts, `run_reddit_scan` returns early: no
further phase runs and the marker is unchanged, even on the first run of
a day.  Otherwise the persisted date marker gates the extra phase: on
the first run of a calendar day, discovery runs and then the
daily-summary block, and the marker is rewritten to today at the end of
that first-run processing; on subsequent runs of the same day only
discovery runs and the marker is unchanged. -/
theorem scan_phase_schedule (last today : String) (posts : List Post)
    (ledger : List String) (now : ℤ) :
    ((scrape_new_posts posts ledger now).isEmpty = true →
      run_reddit_scan_phases last today posts ledger now = ([], last)) ∧
    ((scrape_new_posts posts ledger now).isEmpty = false → last ≠ today →
      run_reddit_scan_phases last today posts ledger now =
        ([ScanPhase.discovery, ScanPhase.dailySummary], today)) ∧
    ((scrape_new_posts posts ledger now).isEmpty = false → last = today →
      run_reddit_scan_phases last today posts ledger now =
        ([ScanPhase.discovery], last)) ∧
    ScanPhase.confirmation ∉
      (run_reddit_scan_phases last today posts ledger now).1 := by
  refine ⟨fun he => by simp [run_reddit_scan_phases, he],
    fun he hd => by simp [run_reddit_scan_phases, he, hd],
    fun he hd => by simp [run_reddit_scan_phases, he, hd], ?_⟩
  rw [run_reddit_scan_phases]
  split_ifs <;> simp

/-- Witness for the amended Claim C7 at concrete inputs: a first run with
a new post runs discovery then the daily summary and advances the marker;
a subsequent run the same day runs only discovery; a first run whose
scrape is empty runs nothing and leaves the stale marker in place. -/
theorem scan_phase_schedule_witness :
    run_reddit_scan_phases "2026-10-11" "2026-10-12"
      [⟨"a", "wsb", "T", "", "u", 0, 1, 1⟩] [] 0 =
      ([ScanPhase.discovery, ScanPhase.dailySummary], "2026-10-12") ∧
    run_reddit_scan_phases "2026-10-12" "2026-10-12"
      [⟨"a", "wsb", "T", "", "u", 0, 1, 1⟩] [] 0 =
      ([ScanPhase.discovery], "2026-10-12") ∧
    run_reddit_scan_phases "2026-10-11" "2026-10-12" [] [] 0 =
      ([], "2026-10-11") :=
  ⟨(scan_phase_schedule "2026-10-11" "2026-10-12"
      [⟨"a", "wsb", "T", "", "u", 0, 1, 1⟩] [] 0).2.1 (by decide) (by decide),
    (scan_phase_schedule "2026-10-12" "2026-10-12"
      [⟨"a", "wsb", "T", "", "u", 0, 1, 1⟩] [] 0).2.2.1 (by decide) rfl,
    (scan_phase_schedule "2026-10-11" "2026-10-12" [] [] 0).1 rfl⟩

theorem mkPlay_post_inj {q p : Post} {b a : Analysis}
    (h : mkPlay q b = mkPlay p a) : q = p := by
  cases q; cases p
  simp only [mkPlay, PlayData.mk.injEq] at h
  simp only [Post.mk.injEq]
  obtain ⟨h1, h2, h3, h4, h5, h6, h7, h8, -, -, -, -⟩ := h
  exact ⟨h1, h2, h3, h4, h5, h6, h7, h8⟩

theorem not_mem_scrape_of_stale_or_media {p : Post} {posts : List Post}
    {ids : List String} {now : ℤ}
    (h : p.created_utc < now - 2 * 86400 ∨ is_media_url p.url = true) :
    p ∉ scrape_new_posts posts ids now := by
  intro hmem
  have hfil := (List.mem_filter.mp hmem).2
  simp only [Bool.and_eq_true, Bool.not_eq_true', decide_eq_false_iff_not] at hfil
  rcases h with h | h
  · exact hfil.1.2 h
  · rw [hfil.2] at h
    exact Bool.false_ne_true h

theorem not_mem_pipeline_attempted {now : ℤ} {p : Post}
    (h : p.created_utc < now - 86400 ∨ is_media_url p.url = true)
    (posts : List Post) :
    ∀ seen : List String, p ∉ pipeline_attempted now posts seen := by
  induction posts with
  | nil =>
    intro seen hmem
    simp [pipeline_attempted] at hmem
  | cons q qs ih =>
    intro seen hmem
    rw [pipeline_attempted] at hmem
    split_ifs at hmem with h1 h2 h3
    · exact ih seen hmem
    · exact ih seen hmem
    · exact ih seen hmem
    · rcases List.mem_cons.mp hmem with he | hmem2
      · subst he
        rcases h with h | h
        · exact h1 h
        · exact h2 h
      · exact ih _ hmem2

/-- Claim C10: beyond the ledger filter, a post older than the fixed age
window (2 days in the scan pipeline, 24 hours in the scraper pipeline) or
with a media-only URL (ending in `.jpeg`/`.png` or containing
`v.redd.it`) is silently excluded: it never enters the scraped list, is
never synthesized into a play, never reaches the published aggregate, and
never reaches TLDR generation or scoring in `process_posts`. -/
theorem stale_and_media_posts_excluded
    (posts : List Post) (ids : List String) (seen : List String) (now : ℤ)
    (p : Post) (synth : Post → Option Analysis) (a : Analysis) :
    (p.created_utc < now - 2 * 86400 ∨ is_media_url p.url = true →
      p ∉ scrape_new_posts posts ids now ∧
      mkPlay p a ∉ analyzed_plays synth (scrape_new_posts posts ids now) ∧
      mkPlay p a ∉ final_plays synth (scrape_new_posts posts ids now)) ∧
    (p.created_utc < now - 86400 ∨ is_media_url p.url = true →
      p ∉ pipeline_attempted now posts seen) := by
  constructor
  · intro h
    have hscr : p ∉ scrape_new_posts posts ids now :=
      not_mem_scrape_of_stale_or_media h
    have hana : mkPlay p a ∉ analyzed_plays synth (scrape_new_posts posts ids now) := by
      intro hmem
      rw [analyzed_plays] at hmem
      obtain ⟨q, hq, hqeq⟩ := List.mem_filterMap.mp hmem
      cases hsy : synth q with
      | none => rw [hsy] at hqeq; exact absurd hqeq (by simp)
      | some b =>
        rw [hsy] at hqeq
        change (if passes_discovery_filter b = true then some (mkPlay q b) else none)
          = some (mkPlay p a) at hqeq
        by_cases hpass : passes_discovery_filter b
        · rw [if_pos hpass, Option.some_inj] at hqeq
          exact hscr (mkPlay_post_inj hqeq ▸ hq)
        · rw [if_neg hpass] at hqeq
          exact absurd hqeq (by simp)
    exact ⟨hscr, hana, fun hmem => hana (mem_rank_and_dedup hmem)⟩
  · intro h
    exact not_mem_pipeline_attempted h posts seen

/-- Witness for Claim C10: a two-days-and-one-second-old post is excluded
from the scan pipeline; a `v.redd.it` post is excluded from the scraper
pipeline. -/
theorem stale_and_media_posts_excluded_witness :
    ((⟨"old", "wsb", "T", "", "u", -172801, 1, 1⟩ : Post) ∉
        scrape_new_posts [⟨"old", "wsb", "T", "", "u", -172801, 1, 1⟩] [] 0 ∧
      mkPlay ⟨"old", "wsb", "T", "", "u", -172801, 1, 1⟩ ⟨"TSLA", "b", "p", 5⟩ ∉
        analyzed_plays (fun _ => some ⟨"TSLA", "b", "p", 5⟩)
          (scrape_new_posts [⟨"old", "wsb", "T", "", "u", -172801, 1, 1⟩] [] 0) ∧
      mkPlay ⟨"old", "wsb", "T", "", "u", -172801, 1, 1⟩ ⟨"TSLA", "b", "p", 5⟩ ∉
        final_plays (fun _ => some ⟨"TSLA", "b", "p", 5⟩)
          (scrape_new_posts [⟨"old", "wsb", "T", "", "u", -172801, 1, 1⟩] [] 0)) ∧
    (⟨"vid", "wsb", "V", "", "https://v.redd.it/x", 0, 1, 1⟩ : Post) ∉
      pipeline_attempted 0 [⟨"vid", "wsb", "V", "", "https://v.redd.it/x", 0, 1, 1⟩] [] :=
  ⟨(stale_and_media_posts_excluded [⟨"old", "wsb", "T", "", "u", -172801, 1, 1⟩]
      [] [] 0 ⟨"old", "wsb", "T", "", "u", -172801, 1, 1⟩
      (fun _ => some ⟨"TSLA", "b", "p", 5⟩) ⟨"TSLA", "b", "p", 5⟩).1
      (Or.inl (by norm_num)),
    (stale_and_media_posts_excluded
      [⟨"vid", "wsb", "V", "", "https://v.redd.it/x", 0, 1, 1⟩] [] [] 0
      ⟨"vid", "wsb", "V", "", "https://v.redd.it/x", 0, 1, 1⟩
      (fun _ => some ⟨"TSLA", "b", "p", 5⟩) ⟨"TSLA", "b", "p", 5⟩).2
      (Or.inr (by decide))⟩
